import Mathlib

/-!
Shallow embedding of the Sony IMX585 sensor driver
(`drivers/media/i2c/imx585.c`) and proofs about its register-write
sequencing, control-range recomputation and format negotiation.

Register-bus I/O is modelled by an error-injection oracle: the n-th
attempted register write of a run succeeds iff `ok n = true`.  Each driver
operation is embedded as an `Act`: a function from the oracle and the
current write counter to the list of bus events actually performed (in
order), the next write counter, and a result.  A failed write attempt
performs no bus event and carries the target address in the error, which
mirrors the driver logging the offending address and propagating the
error code.  Delays (`usleep_range` / `msleep`) and the runtime-PM power
release are recorded as trace events, in microseconds.
-/

namespace Imx585

/-- Register addresses and related constants from the driver header block. -/
def IMX585_STANDBY : Nat := 0x3000
def IMX585_REGHOLD : Nat := 0x3001
def IMX585_XMSTA : Nat := 0x3002
def IMX585_INCK_SEL : Nat := 0x3014
def IMX585_INCK_SEL_74_25 : Nat := 0x00
def IMX585_INCK_SEL_37_125 : Nat := 0x01
def IMX585_INCK_SEL_72 : Nat := 0x02
def IMX585_INCK_SEL_27 : Nat := 0x03
def IMX585_INCK_SEL_24 : Nat := 0x04
def IMX585_LANE_RATE : Nat := 0x3015
def IMX585_LANE_RATE_1188 : Nat := 0x04
def IMX585_LANE_RATE_594 : Nat := 0x07
def IMX585_FLIP_WINMODEH : Nat := 0x3020
def IMX585_FLIP_WINMODEV : Nat := 0x3021
def IMX585_ADBIT : Nat := 0x3022
def IMX585_MDBIT : Nat := 0x3023
def IMX585_VMAX : Nat := 0x3028
def IMX585_VMAX_MAX : Nat := 0x0fffff
def IMX585_HMAX : Nat := 0x302c
def IMX585_HMAX_MAX : Nat := 0xffff
def IMX585_FR_FDG_SEL0 : Nat := 0x3030
def IMX585_FDG_SEL0_LCG : Nat := 0x00
def IMX585_FDG_SEL0_HCG : Nat := 0x01
def IMX585_FR_FDG_SEL1 : Nat := 0x3031
def IMX585_FR_FDG_SEL2 : Nat := 0x3032
def IMX585_CSI_LANE_MODE : Nat := 0x3040
def IMX585_EXPOSURE : Nat := 0x3050
def IMX585_GAIN : Nat := 0x306C

def IMX585_EXPOSURE_MIN : Nat := 8
def IMX585_EXPOSURE_STEP : Nat := 2
/-- Exposure must be this many lines less than VMAX (driver comment). -/
def IMX585_EXPOSURE_OFFSET : Nat := 4

def IMX585_NATIVE_WIDTH : Nat := 3876
def IMX585_NATIVE_HEIGHT : Nat := 2204
def IMX585_PIXEL_ARRAY_LEFT : Nat := 0
def IMX585_PIXEL_ARRAY_TOP : Nat := 20
def IMX585_PIXEL_ARRAY_WIDTH : Nat := 3856
def IMX585_PIXEL_ARRAY_HEIGHT : Nat := 2180

/-- Media-bus pixel codes used by the driver (values from the kernel uapi). -/
def MEDIA_BUS_FMT_SRGGB10_1X10 : Nat := 0x300f
def MEDIA_BUS_FMT_SRGGB12_1X12 : Nat := 0x3012
def MEDIA_BUS_FMT_Y10_1X10 : Nat := 0x200a
def MEDIA_BUS_FMT_Y12_1X12 : Nat := 0x2013

/-- Frame-format constants from the v4l2 uapi headers. -/
def V4L2_FIELD_NONE : Nat := 1
def V4L2_COLORSPACE_RAW : Nat := 15
def V4L2_YCBCR_ENC_601 : Nat := 1
def V4L2_QUANTIZATION_FULL_RANGE : Nat := 1
def V4L2_XFER_FUNC_NONE : Nat := 5

/-- One entry of a register program: `struct imx585_regval`. -/
structure Regval where
  reg : Nat
  val : Nat
deriving DecidableEq, Repr

/-- Observable bus/power events of a driver operation, in order. -/
inductive Ev where
  | wr (addr val : Nat)
  | sleep (us : Nat)
  | pmPut
deriving DecidableEq, Repr

/-- Errors: an I2C write failure carries the target address (the driver
logs the offending address); `inval` is `-EINVAL`. -/
inductive Err where
  | ioFail (addr : Nat)
  | inval
deriving DecidableEq, Repr

/-- Result of a driver operation. -/
inductive Res where
  | ok
  | err (e : Err)
deriving DecidableEq, Repr

/-- Error-injection oracle: `ok n` tells whether the n-th attempted
register write of the run succeeds. -/
abbrev Oracle := Nat → Bool

/-- Outcome of running an operation: events performed, next write
counter, result. -/
structure Out where
  trace : List Ev
  next : Nat
  res : Res
deriving DecidableEq, Repr

/-- A driver operation over the register bus. -/
abbrev Act := Oracle → Nat → Out

/-- The oracle under which every register write succeeds. -/
def okAll : Oracle := fun _ => true

/-- Sequencing: run `f`; on success run `g`; on failure stop and
propagate the error (the pervasive `if (ret) return ret;` pattern). -/
def act_seq (f g : Act) : Act := fun ok n =>
  match f ok n with
  | ⟨t, n1, Res.ok⟩ =>
    let o2 := g ok n1
    ⟨t ++ o2.trace, o2.next, o2.res⟩
  | ⟨t, n1, Res.err e⟩ => ⟨t, n1, Res.err e⟩

/-- An operation doing nothing. -/
def act_nop : Act := fun _ n => ⟨[], n, Res.ok⟩

/-- A blocking delay of `us` microseconds. -/
def act_sleep (us : Nat) : Act := fun _ n => ⟨[Ev.sleep us], n, Res.ok⟩

/-- Failing immediately with error `e`, no bus traffic. -/
def act_fail (e : Err) : Act := fun _ n => ⟨[], n, Res.err e⟩

/-- Chain a list of operations with `act_seq`. -/
def chain : List Act → Act
  | [] => act_nop
  | f :: fs => act_seq f (chain fs)

/-- The per-step outcomes of a chained run: each step is started at the
write counter its predecessor left behind. -/
def seqOuts : List Act → Oracle → Nat → List Out
  | [], _, _ => []
  | f :: fs, ok, n => f ok n :: seqOuts fs ok (f ok n).next

/-- `imx585_write_reg`: one register write; on failure the driver logs the
address and returns the error. -/
def imx585_write_reg (addr value : Nat) : Act := fun ok n =>
  if ok n then ⟨[Ev.wr addr value], n + 1, Res.ok⟩
  else ⟨[], n + 1, Res.err (Err.ioFail addr)⟩

/-- Loop body of `imx585_set_register_array`: write each entry in order,
aborting on the first failure. -/
def regarray_loop : List Regval → Act
  | [] => act_nop
  | r :: rest => act_seq (imx585_write_reg r.reg r.val) (regarray_loop rest)

/-- `imx585_set_register_array`: replay an ordered register program, then
provide the 10 ms settle time. -/
def imx585_set_register_array (settings : List Regval) : Act :=
  act_seq (regarray_loop settings) (act_sleep 10000)

/-- Byte loop of `imx585_write_buffered_reg`: write byte i of `value`
(little-endian) to `address_low + i`. -/
def buffered_bytes (address_low value : Nat) : List Nat → Act
  | [] => act_nop
  | i :: rest =>
    act_seq (imx585_write_reg (address_low + i) ((value >>> (i * 8)) % 256))
      (buffered_bytes address_low value rest)

/-- `imx585_write_buffered_reg`: set the REGHOLD latch, write the bytes,
release the latch.  As in the source, a failing byte write returns at
once, so the latch release is not reached on that path. -/
def imx585_write_buffered_reg (address_low nr_regs value : Nat) : Act :=
  act_seq (imx585_write_reg IMX585_REGHOLD 0x01)
    (act_seq (buffered_bytes address_low value (List.range nr_regs))
      (imx585_write_reg IMX585_REGHOLD 0x00))

/-- Chunk 0 of `imx585_global_settings` (split only to keep list literals small). -/
def imx585_global_settings_0 : List Regval := [
  ⟨0x3002, 0x00⟩,
  ⟨0x301A, 0x00⟩,
  ⟨0x301B, 0x00⟩,
  ⟨0x301C, 0x00⟩,
  ⟨0x301E, 0x01⟩,
  ⟨0x3024, 0x00⟩,
  ⟨0x303C, 0x00⟩,
  ⟨0x303D, 0x00⟩,
  ⟨0x303E, 0x10⟩,
  ⟨0x303F, 0x0F⟩,
  ⟨0x3040, 0x01⟩,
  ⟨0x3042, 0x00⟩,
  ⟨0x3043, 0x00⟩,
  ⟨0x3044, 0x00⟩,
  ⟨0x3045, 0x00⟩,
  ⟨0x3046, 0x84⟩,
  ⟨0x3047, 0x08⟩,
  ⟨0x3054, 0x0E⟩,
  ⟨0x3055, 0x00⟩,
  ⟨0x3056, 0x00⟩,
  ⟨0x3058, 0x8A⟩,
  ⟨0x3059, 0x01⟩,
  ⟨0x305A, 0x00⟩,
  ⟨0x3060, 0x16⟩,
  ⟨0x3061, 0x01⟩,
  ⟨0x3062, 0x00⟩,
  ⟨0x3064, 0xC4⟩,
  ⟨0x3065, 0x0C⟩,
  ⟨0x3066, 0x00⟩,
  ⟨0x3069, 0x00⟩
]

/-- Chunk 1 of `imx585_global_settings` (split only to keep list literals small). -/
def imx585_global_settings_1 : List Regval := [
  ⟨0x306A, 0x00⟩,
  ⟨0x306E, 0x00⟩,
  ⟨0x306F, 0x00⟩,
  ⟨0x3070, 0x00⟩,
  ⟨0x3071, 0x00⟩,
  ⟨0x3074, 0x64⟩,
  ⟨0x3081, 0x00⟩,
  ⟨0x308C, 0x00⟩,
  ⟨0x308D, 0x01⟩,
  ⟨0x3094, 0x00⟩,
  ⟨0x3095, 0x00⟩,
  ⟨0x3096, 0x00⟩,
  ⟨0x3097, 0x00⟩,
  ⟨0x309C, 0x00⟩,
  ⟨0x309D, 0x00⟩,
  ⟨0x30A4, 0xAA⟩,
  ⟨0x30A6, 0x00⟩,
  ⟨0x30CC, 0x00⟩,
  ⟨0x30CD, 0x00⟩,
  ⟨0x30D5, 0x04⟩,
  ⟨0x30DC, 0x32⟩,
  ⟨0x30DD, 0x00⟩,
  ⟨0x3400, 0x01⟩,
  ⟨0x3460, 0x21⟩,
  ⟨0x3478, 0xA1⟩,
  ⟨0x347C, 0x01⟩,
  ⟨0x3480, 0x01⟩,
  ⟨0x36D0, 0x00⟩,
  ⟨0x36D1, 0x10⟩,
  ⟨0x36D4, 0x00⟩
]

/-- Chunk 2 of `imx585_global_settings` (split only to keep list literals small). -/
def imx585_global_settings_2 : List Regval := [
  ⟨0x36D5, 0x10⟩,
  ⟨0x36E2, 0x00⟩,
  ⟨0x36E4, 0x00⟩,
  ⟨0x36E5, 0x00⟩,
  ⟨0x36E6, 0x00⟩,
  ⟨0x36E8, 0x00⟩,
  ⟨0x36E9, 0x00⟩,
  ⟨0x36EA, 0x00⟩,
  ⟨0x36EC, 0x00⟩,
  ⟨0x36EE, 0x00⟩,
  ⟨0x36EF, 0x00⟩,
  ⟨0x3930, 0x66⟩,
  ⟨0x3931, 0x01⟩,
  ⟨0x3A4C, 0x39⟩,
  ⟨0x3A4D, 0x01⟩,
  ⟨0x3A4E, 0x14⟩,
  ⟨0x3A50, 0x48⟩,
  ⟨0x3A51, 0x01⟩,
  ⟨0x3A52, 0x14⟩,
  ⟨0x3A56, 0x00⟩,
  ⟨0x3A5A, 0x00⟩,
  ⟨0x3A5E, 0x00⟩,
  ⟨0x3A62, 0x00⟩,
  ⟨0x3A6A, 0x20⟩,
  ⟨0x3A6C, 0x42⟩,
  ⟨0x3A6E, 0xA0⟩,
  ⟨0x3B2C, 0x0C⟩,
  ⟨0x3B30, 0x1C⟩,
  ⟨0x3B34, 0x0C⟩,
  ⟨0x3B38, 0x1C⟩
]

/-- Chunk 3 of `imx585_global_settings` (split only to keep list literals small). -/
def imx585_global_settings_3 : List Regval := [
  ⟨0x3BA0, 0x0C⟩,
  ⟨0x3BA4, 0x1C⟩,
  ⟨0x3BA8, 0x0C⟩,
  ⟨0x3BAC, 0x1C⟩,
  ⟨0x3D3C, 0x11⟩,
  ⟨0x3D46, 0x0B⟩,
  ⟨0x3DE0, 0x3F⟩,
  ⟨0x3DE1, 0x08⟩,
  ⟨0x3E10, 0x10⟩,
  ⟨0x3E14, 0x87⟩,
  ⟨0x3E16, 0x91⟩,
  ⟨0x3E18, 0x91⟩,
  ⟨0x3E1A, 0x87⟩,
  ⟨0x3E1C, 0x78⟩,
  ⟨0x3E1E, 0x50⟩,
  ⟨0x3E20, 0x50⟩,
  ⟨0x3E22, 0x50⟩,
  ⟨0x3E24, 0x87⟩,
  ⟨0x3E26, 0x91⟩,
  ⟨0x3E28, 0x91⟩,
  ⟨0x3E2A, 0x87⟩,
  ⟨0x3E2C, 0x78⟩,
  ⟨0x3E2E, 0x50⟩,
  ⟨0x3E30, 0x50⟩,
  ⟨0x3E32, 0x50⟩,
  ⟨0x3E34, 0x87⟩,
  ⟨0x3E36, 0x91⟩,
  ⟨0x3E38, 0x91⟩,
  ⟨0x3E3A, 0x87⟩,
  ⟨0x3E3C, 0x78⟩
]

/-- Chunk 4 of `imx585_global_settings` (split only to keep list literals small). -/
def imx585_global_settings_4 : List Regval := [
  ⟨0x3E3E, 0x50⟩,
  ⟨0x3E40, 0x50⟩,
  ⟨0x3E42, 0x50⟩,
  ⟨0x4054, 0x64⟩,
  ⟨0x4148, 0xFE⟩,
  ⟨0x4149, 0x05⟩,
  ⟨0x414A, 0xFF⟩,
  ⟨0x414B, 0x05⟩,
  ⟨0x420A, 0x03⟩,
  ⟨0x4231, 0x18⟩,
  ⟨0x423D, 0x9C⟩,
  ⟨0x4242, 0xB4⟩,
  ⟨0x4246, 0xB4⟩,
  ⟨0x424E, 0xB4⟩,
  ⟨0x425C, 0xB4⟩,
  ⟨0x425E, 0xB6⟩,
  ⟨0x426C, 0xB4⟩,
  ⟨0x426E, 0xB6⟩,
  ⟨0x428C, 0xB4⟩,
  ⟨0x428E, 0xB6⟩,
  ⟨0x4708, 0x00⟩,
  ⟨0x4709, 0x00⟩,
  ⟨0x470A, 0xFF⟩,
  ⟨0x470B, 0x03⟩,
  ⟨0x470C, 0x00⟩,
  ⟨0x470D, 0x00⟩,
  ⟨0x470E, 0xFF⟩,
  ⟨0x470F, 0x03⟩,
  ⟨0x47EB, 0x1C⟩,
  ⟨0x47F0, 0xA6⟩
]

/-- Chunk 5 of `imx585_global_settings` (split only to keep list literals small). -/
def imx585_global_settings_5 : List Regval := [
  ⟨0x47F2, 0xA6⟩,
  ⟨0x47F4, 0xA0⟩,
  ⟨0x47F6, 0x96⟩,
  ⟨0x4808, 0xA6⟩,
  ⟨0x480A, 0xA6⟩,
  ⟨0x480C, 0xA0⟩,
  ⟨0x480E, 0x96⟩,
  ⟨0x492C, 0xB2⟩,
  ⟨0x4930, 0x03⟩,
  ⟨0x4932, 0x03⟩,
  ⟨0x4936, 0x5B⟩,
  ⟨0x4938, 0x82⟩,
  ⟨0x493C, 0x23⟩,
  ⟨0x493E, 0x23⟩,
  ⟨0x4940, 0x23⟩,
  ⟨0x4BA8, 0x1C⟩,
  ⟨0x4BA9, 0x03⟩,
  ⟨0x4BAC, 0x1C⟩,
  ⟨0x4BAD, 0x1C⟩,
  ⟨0x4BAE, 0x1C⟩,
  ⟨0x4BAF, 0x1C⟩,
  ⟨0x4BB0, 0x1C⟩,
  ⟨0x4BB1, 0x1C⟩,
  ⟨0x4BB2, 0x1C⟩,
  ⟨0x4BB3, 0x1C⟩,
  ⟨0x4BB4, 0x1C⟩,
  ⟨0x4BB8, 0x03⟩,
  ⟨0x4BB9, 0x03⟩,
  ⟨0x4BBA, 0x03⟩,
  ⟨0x4BBB, 0x03⟩
]

/-- Chunk 6 of `imx585_global_settings` (split only to keep list literals small). -/
def imx585_global_settings_6 : List Regval := [
  ⟨0x4BBC, 0x03⟩,
  ⟨0x4BBD, 0x03⟩,
  ⟨0x4BBE, 0x03⟩,
  ⟨0x4BBF, 0x03⟩,
  ⟨0x4BC0, 0x03⟩,
  ⟨0x4C14, 0x87⟩,
  ⟨0x4C16, 0x91⟩,
  ⟨0x4C18, 0x91⟩,
  ⟨0x4C1A, 0x87⟩,
  ⟨0x4C1C, 0x78⟩,
  ⟨0x4C1E, 0x50⟩,
  ⟨0x4C20, 0x50⟩,
  ⟨0x4C22, 0x50⟩,
  ⟨0x4C24, 0x87⟩,
  ⟨0x4C26, 0x91⟩,
  ⟨0x4C28, 0x91⟩,
  ⟨0x4C2A, 0x87⟩,
  ⟨0x4C2C, 0x78⟩,
  ⟨0x4C2E, 0x50⟩,
  ⟨0x4C30, 0x50⟩,
  ⟨0x4C32, 0x50⟩,
  ⟨0x4C34, 0x87⟩,
  ⟨0x4C36, 0x91⟩,
  ⟨0x4C38, 0x91⟩,
  ⟨0x4C3A, 0x87⟩,
  ⟨0x4C3C, 0x78⟩,
  ⟨0x4C3E, 0x50⟩,
  ⟨0x4C40, 0x50⟩,
  ⟨0x4C42, 0x50⟩,
  ⟨0x4D12, 0x1F⟩
]

/-- Chunk 7 of `imx585_global_settings` (split only to keep list literals small). -/
def imx585_global_settings_7 : List Regval := [
  ⟨0x4D13, 0x1E⟩,
  ⟨0x4D26, 0x33⟩,
  ⟨0x4E0E, 0x59⟩,
  ⟨0x4E14, 0x55⟩,
  ⟨0x4E16, 0x59⟩,
  ⟨0x4E1E, 0x3B⟩,
  ⟨0x4E20, 0x47⟩,
  ⟨0x4E22, 0x54⟩,
  ⟨0x4E26, 0x81⟩,
  ⟨0x4E2C, 0x7D⟩,
  ⟨0x4E2E, 0x81⟩,
  ⟨0x4E36, 0x63⟩,
  ⟨0x4E38, 0x6F⟩,
  ⟨0x4E3A, 0x7C⟩,
  ⟨0x4F3A, 0x3C⟩,
  ⟨0x4F3C, 0x46⟩,
  ⟨0x4F3E, 0x59⟩,
  ⟨0x4F42, 0x64⟩,
  ⟨0x4F44, 0x6E⟩,
  ⟨0x4F46, 0x81⟩,
  ⟨0x4F4A, 0x82⟩,
  ⟨0x4F5A, 0x81⟩,
  ⟨0x4F62, 0xAA⟩,
  ⟨0x4F72, 0xA9⟩,
  ⟨0x4F78, 0x36⟩,
  ⟨0x4F7A, 0x41⟩,
  ⟨0x4F7C, 0x61⟩,
  ⟨0x4F7D, 0x01⟩,
  ⟨0x4F7E, 0x7C⟩,
  ⟨0x4F7F, 0x01⟩
]

/-- Chunk 8 of `imx585_global_settings` (split only to keep list literals small). -/
def imx585_global_settings_8 : List Regval := [
  ⟨0x4F80, 0x77⟩,
  ⟨0x4F82, 0x7B⟩,
  ⟨0x4F88, 0x37⟩,
  ⟨0x4F8A, 0x40⟩,
  ⟨0x4F8C, 0x62⟩,
  ⟨0x4F8D, 0x01⟩,
  ⟨0x4F8E, 0x76⟩,
  ⟨0x4F8F, 0x01⟩,
  ⟨0x4F90, 0x5E⟩,
  ⟨0x4F91, 0x02⟩,
  ⟨0x4F92, 0x69⟩,
  ⟨0x4F93, 0x02⟩,
  ⟨0x4F94, 0x89⟩,
  ⟨0x4F95, 0x02⟩,
  ⟨0x4F96, 0xA4⟩,
  ⟨0x4F97, 0x02⟩,
  ⟨0x4F98, 0x9F⟩,
  ⟨0x4F99, 0x02⟩,
  ⟨0x4F9A, 0xA3⟩,
  ⟨0x4F9B, 0x02⟩,
  ⟨0x4FA0, 0x5F⟩,
  ⟨0x4FA1, 0x02⟩,
  ⟨0x4FA2, 0x68⟩,
  ⟨0x4FA3, 0x02⟩,
  ⟨0x4FA4, 0x8A⟩,
  ⟨0x4FA5, 0x02⟩,
  ⟨0x4FA6, 0x9E⟩,
  ⟨0x4FA7, 0x02⟩,
  ⟨0x519E, 0x79⟩,
  ⟨0x51A6, 0xA1⟩
]

/-- Chunk 9 of `imx585_global_settings` (split only to keep list literals small). -/
def imx585_global_settings_9 : List Regval := [
  ⟨0x51F0, 0xAC⟩,
  ⟨0x51F2, 0xAA⟩,
  ⟨0x51F4, 0xA5⟩,
  ⟨0x51F6, 0xA0⟩,
  ⟨0x5200, 0x9B⟩,
  ⟨0x5202, 0x91⟩,
  ⟨0x5204, 0x87⟩,
  ⟨0x5206, 0x82⟩,
  ⟨0x5208, 0xAC⟩,
  ⟨0x520A, 0xAA⟩,
  ⟨0x520C, 0xA5⟩,
  ⟨0x520E, 0xA0⟩,
  ⟨0x5210, 0x9B⟩,
  ⟨0x5212, 0x91⟩,
  ⟨0x5214, 0x87⟩,
  ⟨0x5216, 0x82⟩,
  ⟨0x5218, 0xAC⟩,
  ⟨0x521A, 0xAA⟩,
  ⟨0x521C, 0xA5⟩,
  ⟨0x521E, 0xA0⟩,
  ⟨0x5220, 0x9B⟩,
  ⟨0x5222, 0x91⟩,
  ⟨0x5224, 0x87⟩,
  ⟨0x5226, 0x82⟩
]

def imx585_global_settings : List Regval :=
  imx585_global_settings_0 ++ imx585_global_settings_1 ++ imx585_global_settings_2 ++ imx585_global_settings_3 ++ imx585_global_settings_4 ++ imx585_global_settings_5 ++ imx585_global_settings_6 ++ imx585_global_settings_7 ++ imx585_global_settings_8 ++ imx585_global_settings_9

/-- The mode-specific register program `imx585_1080p_common_settings`. -/
def imx585_1080p_common_settings : List Regval := [
  ⟨0x3018, 0x10⟩,
  ⟨IMX585_FR_FDG_SEL1, 0x00⟩,
  ⟨IMX585_FR_FDG_SEL2, 0x00⟩]

/-- Rectangle, as `struct v4l2_rect` (left, top, width, height). -/
structure Rect where
  left : Nat
  top : Nat
  width : Nat
  height : Nat
deriving DecidableEq, Repr

/-- A resolution/timing template: `struct imx585_mode`. -/
structure Mode where
  width : Nat
  height : Nat
  hmax : Nat
  vmax : Nat
  crop : Rect
  mode_data : List Regval
deriving DecidableEq, Repr

/-- The single catalog mode of `imx585_modes`. -/
def imx585_mode0 : Mode :=
  { width := 3856
    height := 2180
    hmax := 3944 * 2
    vmax := 0x08ca
    crop := ⟨IMX585_PIXEL_ARRAY_LEFT, IMX585_PIXEL_ARRAY_TOP,
             IMX585_NATIVE_WIDTH, IMX585_NATIVE_HEIGHT⟩
    mode_data := imx585_1080p_common_settings }

/-- The mode catalog `imx585_modes`. -/
def imx585_modes : List Mode := [imx585_mode0]

/-- A pixel format: `struct imx585_pixfmt`. -/
structure Pixfmt where
  code : Nat
  bpp : Nat
deriving DecidableEq, Repr

def IMX585_NUM_FORMATS : Nat := 2

def imx585_colour_formats : List Pixfmt :=
  [⟨MEDIA_BUS_FMT_SRGGB10_1X10, 10⟩, ⟨MEDIA_BUS_FMT_SRGGB12_1X12, 12⟩]

def imx585_mono_formats : List Pixfmt :=
  [⟨MEDIA_BUS_FMT_Y10_1X10, 10⟩, ⟨MEDIA_BUS_FMT_Y12_1X12, 12⟩]

/-- A v4l2 control: range, step, default and current value. -/
structure Ctrl where
  minimum : Nat
  maximum : Nat
  step : Nat
  default_value : Nat
  val : Nat
deriving DecidableEq, Repr

/-- Modelled from the spec: `__v4l2_ctrl_modify_range` (v4l2 control
framework core, not under src/) replaces the control range, step and
default, clamping the stored current value into the new range. -/
def v4l2_ctrl_modify_range (c : Ctrl) (mn mx st df : Nat) : Ctrl :=
  ⟨mn, mx, st, df, max mn (min mx c.val)⟩

/-- Modelled from the spec: `__v4l2_ctrl_s_ctrl` (v4l2 control framework
core, not under src/) stores a new current value, clamped to the range. -/
def v4l2_ctrl_s_ctrl (c : Ctrl) (v : Nat) : Ctrl :=
  { c with val := max c.minimum (min c.maximum v) }

/-- A media-bus frame format: the fields of `struct v4l2_mbus_framefmt`
the driver touches. -/
structure FrameFmt where
  width : Nat
  height : Nat
  code : Nat
  field : Nat
  colorspace : Nat
  ycbcr_enc : Nat
  quantization : Nat
  xfer_func : Nat
deriving DecidableEq, Repr

/-- In-memory device state (`struct imx585`), restricted to the fields
the embedded operations read or write. -/
structure Imx585State where
  inck_sel : Nat
  nlanes : Nat
  bpp : Nat
  formats : List Pixfmt
  current_format : FrameFmt
  current_mode : Mode
  pixel_rate : Nat
  gain : Ctrl
  hblank : Ctrl
  vblank : Ctrl
  exposure : Ctrl
  hflip : Ctrl
  vflip : Ctrl
deriving DecidableEq, Repr

/-- `imx585_calc_pixel_rate`: a fixed constant. -/
def imx585_calc_pixel_rate : Nat := 148500000

/-- `imx585_set_gain`: 2-byte buffered gain write, then the 1-byte
conversion-gain select (`value < 0x22` selects HCG, else LCG). -/
def imx585_set_gain (value : Nat) : Act :=
  act_seq (imx585_write_buffered_reg IMX585_GAIN 2 value)
    (imx585_write_reg IMX585_FR_FDG_SEL0
      (if value < 0x22 then IMX585_FDG_SEL0_HCG else IMX585_FDG_SEL0_LCG))

/-- The u32 exposure register value `(height + vblank) - value - 1`
computed with 32-bit wrap-around. -/
def exposure_reg (height vblank_val value : Nat) : Nat :=
  (((height : Int) + vblank_val - value - 1) % (2 ^ 32)).toNat

/-- `imx585_set_exposure`: 3-byte buffered write of the exposure register
value derived from the current mode height and vblank value. -/
def imx585_set_exposure (s : Imx585State) (value : Nat) : Act :=
  imx585_write_buffered_reg IMX585_EXPOSURE 3
    (exposure_reg s.current_mode.height s.vblank.val value)

/-- The u32 HMAX register value `(val + width) >> 1`. -/
def hmax_reg (width val : Nat) : Nat := ((val + width) % 2 ^ 32) >>> 1

/-- `imx585_set_hmax`: 2-byte buffered write of `(val + width) >> 1`. -/
def imx585_set_hmax (s : Imx585State) (val : Nat) : Act :=
  imx585_write_buffered_reg IMX585_HMAX 2 (hmax_reg s.current_mode.width val)

/-- The u32 VMAX register value `val + height`. -/
def vmax_reg (height val : Nat) : Nat := (val + height) % 2 ^ 32

/-- State effect of `imx585_set_vmax`: the exposure control range is
recomputed to `[8, vmax - 4]`, step 2, default `vmax - 4`, via
`__v4l2_ctrl_modify_range`. -/
def imx585_set_vmax_state (s : Imx585State) (val : Nat) : Imx585State :=
  let vmax := vmax_reg s.current_mode.height val
  let ex := v4l2_ctrl_modify_range s.exposure IMX585_EXPOSURE_MIN
    (vmax - IMX585_EXPOSURE_OFFSET) IMX585_EXPOSURE_STEP
    (vmax - IMX585_EXPOSURE_OFFSET)
  { s with exposure := ex }

/-- Bus behaviour of `imx585_set_vmax`: the 3-byte buffered VMAX write,
followed unconditionally (the driver does not return early on a VMAX
write failure) by re-issuing `imx585_set_exposure` with the exposure
value current after the range recompute; the VMAX write result is what
the function returns. -/
def imx585_set_vmax_act (s : Imx585State) (val : Nat) : Act := fun ok n =>
  let vmax := vmax_reg s.current_mode.height val
  let o1 := imx585_write_buffered_reg IMX585_VMAX 3 vmax ok n
  let s1 := imx585_set_vmax_state s val
  let o2 := imx585_set_exposure s1 s1.exposure.val ok o1.next
  ⟨o1.trace ++ o2.trace, o2.next, o1.res⟩

/-- `imx585_stop_streaming`: standby-set, 30 ms, master-stop-set; as in
the source, a failing standby write returns before the master-stop. -/
def imx585_stop_streaming : Act :=
  act_seq (imx585_write_reg IMX585_STANDBY 0x01)
    (act_seq (act_sleep 30000) (imx585_write_reg IMX585_XMSTA 0x01))

/-- Disable path of `imx585_set_stream`: run `imx585_stop_streaming`
(ignoring its result) and always release power afterwards; returns 0. -/
def imx585_set_stream_disable : Act := fun ok n =>
  let o := imx585_stop_streaming ok n
  ⟨o.trace ++ [Ev.pmPut], o.next, Res.ok⟩

/-- The AD/MD bit-depth code for a pixel code, as in
`imx585_write_current_format`; `none` is the fatal unknown-format case. -/
def ad_md_bit (code : Nat) : Option Nat :=
  if code = MEDIA_BUS_FMT_SRGGB10_1X10 ∨ code = MEDIA_BUS_FMT_Y10_1X10 then
    some 0x00
  else if code = MEDIA_BUS_FMT_SRGGB12_1X12 ∨ code = MEDIA_BUS_FMT_Y12_1X12 then
    some 0x01
  else none

/-- `imx585_write_current_format`: write ADBIT then MDBIT from the active
format bit depth; unknown format is `-EINVAL` with no bus traffic. -/
def imx585_write_current_format (s : Imx585State) : Act :=
  match ad_md_bit s.current_format.code with
  | some b => act_seq (imx585_write_reg IMX585_ADBIT b)
      (imx585_write_reg IMX585_MDBIT b)
  | none => act_fail Err.inval

/-- Modelled from the spec: `v4l2_ctrl_handler_setup` (v4l2 control
framework core, not under src/) re-applies all current control values,
in the order gain, exposure, hblank, vblank, then the flip controls,
aborting on the first failure. -/
def v4l2_ctrl_handler_setup (s : Imx585State) : Act :=
  chain [imx585_set_gain s.gain.val,
         imx585_set_exposure s s.exposure.val,
         imx585_set_hmax s s.hblank.val,
         imx585_set_vmax_act s s.vblank.val,
         imx585_write_reg IMX585_FLIP_WINMODEH s.hflip.val,
         imx585_write_reg IMX585_FLIP_WINMODEV s.vflip.val]

/-- The ordered steps of `imx585_start_streaming`: global defaults,
input-clock select, format bit depth, mode program, lane count, lane
rate, control replay, standby clear, 30 ms wait, master start. -/
def imx585_start_steps (s : Imx585State) : List Act :=
  [imx585_set_register_array imx585_global_settings,
   imx585_write_reg IMX585_INCK_SEL s.inck_sel,
   imx585_write_current_format s,
   imx585_set_register_array s.current_mode.mode_data,
   imx585_write_reg IMX585_CSI_LANE_MODE (if s.nlanes = 2 then 0x01 else 0x03),
   imx585_write_reg IMX585_LANE_RATE
     (if s.nlanes = 2 then IMX585_LANE_RATE_1188 else IMX585_LANE_RATE_594),
   v4l2_ctrl_handler_setup s,
   imx585_write_reg IMX585_STANDBY 0x00,
   act_sleep 30000,
   imx585_write_reg IMX585_XMSTA 0x00]

/-- `imx585_start_streaming`: the steps above, each aborting the
sequence on failure. -/
def imx585_start_streaming (s : Imx585State) : Act :=
  chain (imx585_start_steps s)

/-- Negotiation scope: `V4L2_SUBDEV_FORMAT_TRY` or `_ACTIVE`. -/
inductive Whence where
  | FORMAT_TRY
  | FORMAT_ACTIVE
deriving DecidableEq, Repr

/-- Modelled from the spec: `v4l2_find_nearest_size` (v4l2 framework
core, not under src/) picks the catalog entry nearest to the requested
width/height by absolute difference, ties broken toward the earlier
entry. -/
def nearest_err (m : Mode) (w h : Nat) : Nat :=
  ((w : Int) - m.width).natAbs + ((h : Int) - m.height).natAbs

/-- Modelled from the spec: deterministic nearest-match over the catalog
(first entry wins ties). -/
def v4l2_find_nearest_size (modes : List Mode) (w h : Nat) : Option Mode :=
  match modes with
  | [] => none
  | m :: rest =>
    some (rest.foldl (fun acc m2 =>
      if nearest_err m2 w h < nearest_err acc w h then m2 else acc) m)

/-- `imx585_set_fmt`: negotiate a mode and pixel format.  Arguments: the
device state, the ephemeral try-scope format slot, the scope, and the
requested format.  Returns the new device state, the new try slot, and
the format written back to the caller.  In try scope only the try slot
changes; in active scope the device state's mode, bpp, pixel rate and
the HBlank/VBlank/Exposure control ranges are recomputed as in the
source (exposure maximum and default become `mode.vmax - 2`). -/
def imx585_set_fmt (s : Imx585State) (tryFmt : FrameFmt) (which : Whence)
    (req : FrameFmt) : Imx585State × FrameFmt × FrameFmt :=
  let mode := (v4l2_find_nearest_size imx585_modes req.width req.height).getD
    s.current_mode
  let i0 := s.formats.findIdx (fun f => f.code == req.code)
  let i := if i0 < IMX585_NUM_FORMATS then i0 else 0
  let fsel := s.formats.getD i ⟨0, 0⟩
  let out : FrameFmt :=
    { width := mode.width
      height := mode.height
      code := fsel.code
      field := V4L2_FIELD_NONE
      colorspace := V4L2_COLORSPACE_RAW
      ycbcr_enc := V4L2_YCBCR_ENC_601
      quantization := V4L2_QUANTIZATION_FULL_RANGE
      xfer_func := V4L2_XFER_FUNC_NONE }
  match which with
  | Whence.FORMAT_TRY => (s, out, out)
  | Whence.FORMAT_ACTIVE =>
    let hb := v4l2_ctrl_s_ctrl
      (v4l2_ctrl_modify_range s.hblank (mode.hmax - mode.width)
        (IMX585_HMAX_MAX - mode.width) 1 (mode.hmax - mode.width))
      (mode.hmax - mode.width)
    let vb := v4l2_ctrl_s_ctrl
      (v4l2_ctrl_modify_range s.vblank (mode.vmax - mode.height)
        (IMX585_VMAX_MAX - mode.height) 1 (mode.vmax - mode.height))
      (mode.vmax - mode.height)
    let ex := v4l2_ctrl_modify_range s.exposure IMX585_EXPOSURE_MIN
      (mode.vmax - 2) IMX585_EXPOSURE_STEP (mode.vmax - 2)
    ({ s with current_mode := mode
              bpp := fsel.bpp
              pixel_rate := imx585_calc_pixel_rate
              hblank := hb
              vblank := vb
              exposure := ex
              current_format := out }, tryFmt, out)

/-- Selection targets handled by `imx585_get_selection`; `OTHER` stands
for any unhandled target (the `-EINVAL` default). -/
inductive SelTarget where
  | CROP
  | NATIVE_SIZE
  | CROP_DEFAULT
  | CROP_BOUNDS
  | OTHER
deriving DecidableEq, Repr

/-- `imx585_get_selection` (with `__imx585_get_pad_crop` inlined):
the CROP target reads the try-scope crop or the active mode's crop;
NATIVE_SIZE and CROP_DEFAULT/CROP_BOUNDS are fixed rectangles; anything
else is `-EINVAL` (`none`). -/
def imx585_get_selection (s : Imx585State) (tryCrop : Rect) (which : Whence)
    (target : SelTarget) : Option Rect :=
  match target with
  | SelTarget.CROP =>
    match which with
    | Whence.FORMAT_TRY => some tryCrop
    | Whence.FORMAT_ACTIVE => some s.current_mode.crop
  | SelTarget.NATIVE_SIZE =>
    some ⟨0, 0, IMX585_NATIVE_WIDTH, IMX585_NATIVE_HEIGHT⟩
  | SelTarget.CROP_DEFAULT =>
    some ⟨IMX585_PIXEL_ARRAY_LEFT, IMX585_PIXEL_ARRAY_TOP,
          IMX585_PIXEL_ARRAY_WIDTH, IMX585_PIXEL_ARRAY_HEIGHT⟩
  | SelTarget.CROP_BOUNDS =>
    some ⟨IMX585_PIXEL_ARRAY_LEFT, IMX585_PIXEL_ARRAY_TOP,
          IMX585_PIXEL_ARRAY_WIDTH, IMX585_PIXEL_ARRAY_HEIGHT⟩
  | SelTarget.OTHER => none

/-- The active format established by `imx585_entity_init_cfg` during
probe: the 1936x1100 request negotiates to the single catalog mode with
the first colour format. -/
def imx585_probe_format : FrameFmt :=
  { width := imx585_mode0.width
    height := imx585_mode0.height
    code := MEDIA_BUS_FMT_SRGGB10_1X10
    field := V4L2_FIELD_NONE
    colorspace := V4L2_COLORSPACE_RAW
    ycbcr_enc := V4L2_YCBCR_ENC_601
    quantization := V4L2_QUANTIZATION_FULL_RANGE
    xfer_func := V4L2_XFER_FUNC_NONE }

/-- Device state right after `imx585_probe` for a 2-lane colour sensor
with a 24 MHz external clock: the control ranges and defaults are the
ones passed to `v4l2_ctrl_new_std` (in particular the exposure control
is created with maximum and default `mode->vmax - 2`). -/
def imx585_probe_state : Imx585State :=
  { inck_sel := IMX585_INCK_SEL_24
    nlanes := 2
    bpp := 10
    formats := imx585_colour_formats
    current_format := imx585_probe_format
    current_mode := imx585_mode0
    pixel_rate := imx585_calc_pixel_rate
    gain := ⟨0, 100, 1, 0, 0⟩
    hblank := ⟨imx585_mode0.hmax - imx585_mode0.width,
               IMX585_HMAX_MAX - imx585_mode0.width, 1,
               imx585_mode0.hmax - imx585_mode0.width,
               imx585_mode0.hmax - imx585_mode0.width⟩
    vblank := ⟨imx585_mode0.vmax - imx585_mode0.height,
               IMX585_VMAX_MAX - imx585_mode0.height, 1,
               imx585_mode0.vmax - imx585_mode0.height,
               imx585_mode0.vmax - imx585_mode0.height⟩
    exposure := ⟨IMX585_EXPOSURE_MIN, imx585_mode0.vmax - 2,
                 IMX585_EXPOSURE_STEP, imx585_mode0.vmax - 2,
                 imx585_mode0.vmax - 2⟩
    hflip := ⟨0, 1, 1, 0, 0⟩
    vflip := ⟨0, 1, 1, 0, 0⟩ }


/-- The trace and result a chain of steps produces, given the per-step
outcomes: concatenate traces up to and including the first failing step,
whose error is the overall result. -/
def chainCut : List Out → List Ev × Res
  | [] => ([], Res.ok)
  | o :: rest =>
    match o.res with
    | Res.ok => (o.trace ++ (chainCut rest).1, (chainCut rest).2)
    | Res.err e => (o.trace, Res.err e)

/-! ### Helper lemmas -/

theorem exposure_reg_eq (h vb e : Nat) (h8 : 8 ≤ e) (hhi : e ≤ vb + h - 4)
    (hfit : vb + h < 2 ^ 32) : exposure_reg h vb e = h + vb - e - 1 := by
  unfold exposure_reg
  have hp : (2 : Nat) ^ 32 = 4294967296 := by norm_num
  have hpz : (2 : Int) ^ 32 = 4294967296 := by norm_num
  rw [hp] at hfit
  have h0 : (0 : Int) ≤ (h : Int) + vb - e - 1 := by omega
  have h1 : (h : Int) + vb - e - 1 < 2 ^ 32 := by rw [hpz]; omega
  rw [Int.emod_eq_of_lt h0 h1]
  omega

/-! ### Claim theorems -/

/-- C8: `imx585_set_hmax` writes `hmax = (v + width) >> 1` as a 2-byte
buffered value, truncating downward; for width 3856 and v = 1 the written
value is 1928, not 1929. -/
theorem imx585_set_hmax_value (s : Imx585State) (v : Nat)
    (hfit : v + s.current_mode.width < 2 ^ 32) :
    imx585_set_hmax s v
        = imx585_write_buffered_reg IMX585_HMAX 2 ((v + s.current_mode.width) / 2)
      ∧ hmax_reg 3856 1 = 1928 ∧ hmax_reg 3856 1 ≠ 1929 := by
  have hv : hmax_reg s.current_mode.width v = (v + s.current_mode.width) / 2 := by
    unfold hmax_reg
    rw [Nat.mod_eq_of_lt hfit, Nat.shiftRight_eq_div_pow]
  refine ⟨?_, by decide, by decide⟩
  show imx585_write_buffered_reg IMX585_HMAX 2 (hmax_reg s.current_mode.width v) = _
  rw [hv]

/-- C8 witness: the theorem applied at the post-probe state with v = 1. -/
theorem imx585_set_hmax_value_witness :
    imx585_set_hmax imx585_probe_state 1
        = imx585_write_buffered_reg IMX585_HMAX 2
            ((1 + imx585_probe_state.current_mode.width) / 2)
      ∧ hmax_reg 3856 1 = 1928 ∧ hmax_reg 3856 1 ≠ 1929 :=
  imx585_set_hmax_value imx585_probe_state 1 (by decide)

/-- C6: for `e` in the advertised exposure range `[8, vmax - 4]` (with
`vmax = vblank + height` representable in u32), `imx585_set_exposure`
writes the 3-byte register value `height + vblank - e - 1` exactly (no
u32 wrap, hence nonnegative), and that value is at most `vmax - 5`. -/
theorem imx585_set_exposure_value (s : Imx585State) (e : Nat)
    (h8 : IMX585_EXPOSURE_MIN ≤ e)
    (hhi : e ≤ s.vblank.val + s.current_mode.height - IMX585_EXPOSURE_OFFSET)
    (hfit : s.vblank.val + s.current_mode.height < 2 ^ 32) :
    imx585_set_exposure s e
        = imx585_write_buffered_reg IMX585_EXPOSURE 3
            (s.current_mode.height + s.vblank.val - e - 1)
      ∧ s.current_mode.height + s.vblank.val - e - 1
          ≤ s.vblank.val + s.current_mode.height - 5 := by
  have h8n : 8 ≤ e := h8
  have hhin : e ≤ s.vblank.val + s.current_mode.height - 4 := hhi
  have hsub := exposure_reg_eq s.current_mode.height s.vblank.val e h8n hhin hfit
  constructor
  · show imx585_write_buffered_reg IMX585_EXPOSURE 3
        (exposure_reg s.current_mode.height s.vblank.val e) = _
    rw [hsub]
  · omega

/-- C6 witness: the theorem applied at the post-probe state with e = 8. -/
theorem imx585_set_exposure_value_witness :
    imx585_set_exposure imx585_probe_state 8
        = imx585_write_buffered_reg IMX585_EXPOSURE 3
            (imx585_probe_state.current_mode.height
              + imx585_probe_state.vblank.val - 8 - 1)
      ∧ imx585_probe_state.current_mode.height
            + imx585_probe_state.vblank.val - 8 - 1
          ≤ imx585_probe_state.vblank.val
              + imx585_probe_state.current_mode.height - 5 :=
  imx585_set_exposure_value imx585_probe_state 8 (by decide) (by decide) (by decide)

/-- C9: try-scope format negotiation leaves the whole device state (active
mode, bpp, stored current format, and every control range) unchanged. -/
theorem imx585_set_fmt_try_no_side_effect (s : Imx585State) (tryFmt : FrameFmt)
    (req : FrameFmt) :
    (imx585_set_fmt s tryFmt Whence.FORMAT_TRY req).1 = s := rfl

/-- C10: for any device state whose active mode is from the catalog, the
active-scope CROP selection is the fixed rectangle (0, 20, 3876, 2204) -
the catalog mode's crop is set to the NATIVE sensor size - which is
strictly larger than the mode's output size and than the rectangle
reported for CROP_DEFAULT/CROP_BOUNDS. -/
theorem imx585_get_selection_active_crop (s : Imx585State) (tryCrop : Rect)
    (h : s.current_mode ∈ imx585_modes) :
    imx585_get_selection s tryCrop Whence.FORMAT_ACTIVE SelTarget.CROP
        = some ⟨0, 20, 3876, 2204⟩
      ∧ s.current_mode.width < 3876 ∧ s.current_mode.height < 2204
      ∧ imx585_get_selection s tryCrop Whence.FORMAT_ACTIVE SelTarget.CROP_DEFAULT
          = some ⟨0, 20, 3856, 2180⟩
      ∧ imx585_get_selection s tryCrop Whence.FORMAT_ACTIVE SelTarget.CROP_BOUNDS
          = some ⟨0, 20, 3856, 2180⟩
      ∧ (3856 : Nat) < 3876 ∧ (2180 : Nat) < 2204 := by
  have hm : s.current_mode = imx585_mode0 := by
    simpa [imx585_modes] using h
  refine ⟨?_, ?_, ?_, rfl, rfl, by decide, by decide⟩
  · show some s.current_mode.crop = _
    rw [hm]
    rfl
  · rw [hm]; decide
  · rw [hm]; decide

/-- C10 witness: the theorem applied at the post-probe state. -/
theorem imx585_get_selection_active_crop_witness :
    imx585_get_selection imx585_probe_state ⟨0, 0, 0, 0⟩
          Whence.FORMAT_ACTIVE SelTarget.CROP
        = some ⟨0, 20, 3876, 2204⟩
      ∧ imx585_probe_state.current_mode.width < 3876
      ∧ imx585_probe_state.current_mode.height < 2204
      ∧ imx585_get_selection imx585_probe_state ⟨0, 0, 0, 0⟩
            Whence.FORMAT_ACTIVE SelTarget.CROP_DEFAULT
          = some ⟨0, 20, 3856, 2180⟩
      ∧ imx585_get_selection imx585_probe_state ⟨0, 0, 0, 0⟩
            Whence.FORMAT_ACTIVE SelTarget.CROP_BOUNDS
          = some ⟨0, 20, 3856, 2180⟩
      ∧ (3856 : Nat) < 3876 ∧ (2180 : Nat) < 2204 :=
  imx585_get_selection_active_crop imx585_probe_state ⟨0, 0, 0, 0⟩ (by decide)

/-- C1 (code bug): the exposure range maximum right after probe, and after
active-scope format negotiation, is `vmax_register - 2`, not the
`vmax_register - 4` required by the documented `IMX585_EXPOSURE_OFFSET`;
only `imx585_set_vmax` applies the documented offset. -/
theorem imx585_exposure_range_offset_mismatch :
    imx585_probe_state.exposure.maximum
        = imx585_probe_state.vblank.val + imx585_mode0.height - 2
      ∧ imx585_probe_state.exposure.maximum
          ≠ imx585_probe_state.vblank.val + imx585_mode0.height
              - IMX585_EXPOSURE_OFFSET
      ∧ (imx585_set_fmt imx585_probe_state imx585_probe_format
            Whence.FORMAT_ACTIVE imx585_probe_format).1.exposure.maximum
          = imx585_mode0.vmax - 2
      ∧ imx585_mode0.vmax - 2 ≠ imx585_mode0.vmax - IMX585_EXPOSURE_OFFSET
      ∧ (imx585_set_vmax_state imx585_probe_state
            imx585_probe_state.vblank.val).exposure.maximum
          = imx585_probe_state.vblank.val + imx585_mode0.height
              - IMX585_EXPOSURE_OFFSET := by
  decide

/-- C2 (code bug): a buffered 3-byte VMAX write whose first data-byte
write fails (write attempt 1 of the run) reports the failure, but exits
without ever writing 0 to REGHOLD: the hold latch set at the start is
never released on this path. -/
theorem imx585_write_buffered_reg_hold_leak :
    (imx585_write_buffered_reg IMX585_VMAX 3 0x08ca (fun n => n != 1) 0).res
        = Res.err (Err.ioFail IMX585_VMAX)
      ∧ Ev.wr IMX585_REGHOLD 0x00
          ∉ (imx585_write_buffered_reg IMX585_VMAX 3 0x08ca (fun n => n != 1) 0).trace
      ∧ Ev.wr IMX585_REGHOLD 0x01
          ∈ (imx585_write_buffered_reg IMX585_VMAX 3 0x08ca (fun n => n != 1) 0).trace := by
  decide

/-- C5 counterexample: a stop request whose standby-set write fails (all
later writes would succeed) never issues the master-stop write, so the
master-stop write is not issued on every stop request; power is still
released. -/
theorem imx585_stop_skips_master_stop :
    Ev.wr IMX585_XMSTA 0x01
        ∉ (imx585_set_stream_disable (fun n => n != 0) 0).trace
      ∧ Ev.pmPut ∈ (imx585_set_stream_disable (fun n => n != 0) 0).trace := by
  decide

/-- C5 (amended): stop issues the standby-set write; only if that write
succeeds does it wait 30 ms and issue the master-stop write; and the
stop path always releases power afterwards and reports success,
whatever failed. -/
theorem imx585_stop_streaming_best_effort (ok : Oracle) (n : Nat) :
    (imx585_set_stream_disable ok n).trace
        = (imx585_stop_streaming ok n).trace ++ [Ev.pmPut]
      ∧ (imx585_set_stream_disable ok n).res = Res.ok
      ∧ (imx585_stop_streaming ok n).trace
          = (if ok n then
              [Ev.wr IMX585_STANDBY 0x01, Ev.sleep 30000]
                ++ (if ok (n + 1) then [Ev.wr IMX585_XMSTA 0x01] else [])
            else []) := by
  refine ⟨rfl, rfl, ?_⟩
  cases hb : ok n <;> cases hb2 : ok (n + 1) <;>
    simp [imx585_stop_streaming, act_seq, imx585_write_reg, act_sleep, hb, hb2]

/-- C3: `imx585_set_vmax` first performs the buffered 3-byte VMAX write of
`v + height`, then recomputes the exposure range to `[8, vmax - 4]` step
2 with default reset to the new maximum (clamping the stored value), and
then re-issues the buffered exposure write with the exposure value
current after that recompute - in that order on the bus; the result
returned is that of the VMAX write. -/
theorem imx585_set_vmax_sequence (s : Imx585State) (v : Nat) (n : Nat) :
    (imx585_set_vmax_act s v okAll n).trace
        = [Ev.wr IMX585_REGHOLD 0x01,
           Ev.wr (IMX585_VMAX + 0)
             ((vmax_reg s.current_mode.height v >>> (0 * 8)) % 256),
           Ev.wr (IMX585_VMAX + 1)
             ((vmax_reg s.current_mode.height v >>> (1 * 8)) % 256),
           Ev.wr (IMX585_VMAX + 2)
             ((vmax_reg s.current_mode.height v >>> (2 * 8)) % 256),
           Ev.wr IMX585_REGHOLD 0x00,
           Ev.wr IMX585_REGHOLD 0x01,
           Ev.wr (IMX585_EXPOSURE + 0)
             ((exposure_reg s.current_mode.height s.vblank.val
                 (max IMX585_EXPOSURE_MIN
                   (min (vmax_reg s.current_mode.height v - IMX585_EXPOSURE_OFFSET)
                     s.exposure.val)) >>> (0 * 8)) % 256),
           Ev.wr (IMX585_EXPOSURE + 1)
             ((exposure_reg s.current_mode.height s.vblank.val
                 (max IMX585_EXPOSURE_MIN
                   (min (vmax_reg s.current_mode.height v - IMX585_EXPOSURE_OFFSET)
                     s.exposure.val)) >>> (1 * 8)) % 256),
           Ev.wr (IMX585_EXPOSURE + 2)
             ((exposure_reg s.current_mode.height s.vblank.val
                 (max IMX585_EXPOSURE_MIN
                   (min (vmax_reg s.current_mode.height v - IMX585_EXPOSURE_OFFSET)
                     s.exposure.val)) >>> (2 * 8)) % 256),
           Ev.wr IMX585_REGHOLD 0x00]
      ∧ (imx585_set_vmax_state s v).exposure
          = ⟨IMX585_EXPOSURE_MIN,
             vmax_reg s.current_mode.height v - IMX585_EXPOSURE_OFFSET,
             IMX585_EXPOSURE_STEP,
             vmax_reg s.current_mode.height v - IMX585_EXPOSURE_OFFSET,
             max IMX585_EXPOSURE_MIN
               (min (vmax_reg s.current_mode.height v - IMX585_EXPOSURE_OFFSET)
                 s.exposure.val)⟩
      ∧ (imx585_set_vmax_act s v okAll n).res
          = (imx585_write_buffered_reg IMX585_VMAX 3
              (vmax_reg s.current_mode.height v) okAll n).res := by
  exact ⟨rfl, rfl, rfl⟩


theorem chain_eq_chainCut (fs : List Act) (ok : Oracle) (n : Nat) :
    (chain fs ok n).trace = (chainCut (seqOuts fs ok n)).1
      ∧ (chain fs ok n).res = (chainCut (seqOuts fs ok n)).2 := by
  induction fs generalizing n with
  | nil => exact ⟨rfl, rfl⟩
  | cons f fs ih =>
    rcases hfo : f ok n with ⟨t, n1, r⟩
    cases r with
    | ok =>
      constructor <;>
        simp [chain, act_seq, seqOuts, hfo, chainCut, (ih n1).1, (ih n1).2]
    | err e =>
      constructor <;> simp [chain, act_seq, seqOuts, hfo, chainCut]

theorem chainCut_ok (outs : List Out) (h : (chainCut outs).2 = Res.ok) :
    (∀ o ∈ outs, o.res = Res.ok)
      ∧ (chainCut outs).1 = (outs.map Out.trace).flatten := by
  induction outs with
  | nil => exact ⟨fun o ho => ((List.not_mem_nil o) ho).elim, rfl⟩
  | cons o rest ih =>
    cases ho : o.res with
    | ok =>
      have h2 : (chainCut rest).2 = Res.ok := by simpa [chainCut, ho] using h
      obtain ⟨hall, htr⟩ := ih h2
      constructor
      · intro o2 ho2
        rcases List.mem_cons.mp ho2 with h3 | h3
        · rw [h3]; exact ho
        · exact hall o2 h3
      · simp [chainCut, ho, htr]
    | err e => simp [chainCut, ho] at h

theorem chainCut_err (outs : List Out) (e : Err)
    (h : (chainCut outs).2 = Res.err e) :
    ∃ k o, outs.get? k = some o ∧ o.res = Res.err e
      ∧ (∀ j o2, j < k → outs.get? j = some o2 → o2.res = Res.ok)
      ∧ (chainCut outs).1 = ((outs.take (k + 1)).map Out.trace).flatten := by
  induction outs with
  | nil => simp [chainCut] at h
  | cons o rest ih =>
    cases ho : o.res with
    | ok =>
      have h2 : (chainCut rest).2 = Res.err e := by simpa [chainCut, ho] using h
      obtain ⟨k, o2, hget, hres, hbef, htr⟩ := ih h2
      refine ⟨k + 1, o2, by simpa using hget, hres, ?_, ?_⟩
      · intro j o3 hj hget3
        cases j with
        | zero =>
          simp only [List.get?] at hget3
          injection hget3 with h4
          rw [← h4]; exact ho
        | succ j2 =>
          simp only [List.get?] at hget3
          exact hbef j2 o3 (by omega) hget3
      · simp [chainCut, ho, htr]
    | err e2 =>
      have he2 : e2 = e := by simpa [chainCut, ho] using h
      subst he2
      refine ⟨0, o, rfl, ho, ?_, ?_⟩
      · intro j o2 hj hget2; omega
      · simp [chainCut, ho]

theorem regarray_loop_spec (settings : List Regval) (ok : Oracle) (n : Nat) :
    ((regarray_loop settings ok n).res = Res.ok →
      (regarray_loop settings ok n).trace
          = settings.map (fun r => Ev.wr r.reg r.val)) ∧
    (∀ e, (regarray_loop settings ok n).res = Res.err e →
      ∃ k r, settings.get? k = some r ∧ e = Err.ioFail r.reg ∧
        ok (n + k) = false ∧ (∀ j, j < k → ok (n + j) = true) ∧
        (regarray_loop settings ok n).trace
          = (settings.take k).map (fun r => Ev.wr r.reg r.val)) := by
  induction settings generalizing n with
  | nil =>
    constructor
    · intro _; rfl
    · intro e he; simp [regarray_loop, act_nop] at he
  | cons r rest ih =>
    cases hok : ok n with
    | true =>
      have hw : imx585_write_reg r.reg r.val ok n
          = ⟨[Ev.wr r.reg r.val], n + 1, Res.ok⟩ := by
        simp [imx585_write_reg, hok]
      constructor
      · intro h
        have hres : (regarray_loop rest ok (n + 1)).res = Res.ok := by
          simpa [regarray_loop, act_seq, hw] using h
        have ht := (ih (n + 1)).1 hres
        simp [regarray_loop, act_seq, hw, ht]
      · intro e he
        have hres : (regarray_loop rest ok (n + 1)).res = Res.err e := by
          simpa [regarray_loop, act_seq, hw] using he
        obtain ⟨k, r2, hget, herr, hfail, hbef, htr⟩ := (ih (n + 1)).2 e hres
        refine ⟨k + 1, r2, by simpa using hget, herr, ?_, ?_, ?_⟩
        · have hx : n + (k + 1) = (n + 1) + k := by omega
          rw [hx]; exact hfail
        · intro j hj
          cases j with
          | zero => simpa using hok
          | succ j2 =>
            have hx : n + (j2 + 1) = (n + 1) + j2 := by omega
            rw [hx]; exact hbef j2 (by omega)
        · simp [regarray_loop, act_seq, hw, htr]
    | false =>
      have hw : imx585_write_reg r.reg r.val ok n
          = ⟨[], n + 1, Res.err (Err.ioFail r.reg)⟩ := by
        simp [imx585_write_reg, hok]
      constructor
      · intro h; simp [regarray_loop, act_seq, hw] at h
      · intro e he
        have he2 : e = Err.ioFail r.reg := by
          simpa [regarray_loop, act_seq, hw] using he.symm
        refine ⟨0, r, rfl, he2, by simpa using hok, ?_, ?_⟩
        · intro j hj; omega
        · simp [regarray_loop, act_seq, hw]

/-- C7: replaying a register program writes the entries strictly in list
order; on the first failing write it stops at once, reporting the failing
entry's address, with earlier entries written (no rollback) and no later
entry written and no settle delay; only when every entry succeeded does
it block 10 ms before returning success. -/
theorem imx585_set_register_array_order (settings : List Regval) (ok : Oracle)
    (n : Nat) :
    ((imx585_set_register_array settings ok n).res = Res.ok →
      (imx585_set_register_array settings ok n).trace
          = settings.map (fun r => Ev.wr r.reg r.val) ++ [Ev.sleep 10000]) ∧
    (∀ e, (imx585_set_register_array settings ok n).res = Res.err e →
      ∃ k r, settings.get? k = some r ∧ e = Err.ioFail r.reg ∧
        ok (n + k) = false ∧ (∀ j, j < k → ok (n + j) = true) ∧
        (imx585_set_register_array settings ok n).trace
          = (settings.take k).map (fun r => Ev.wr r.reg r.val)) := by
  obtain ⟨hok, herr⟩ := regarray_loop_spec settings ok n
  rcases hlo : regarray_loop settings ok n with ⟨t, n1, r⟩
  rw [hlo] at hok herr
  cases r with
  | ok =>
    constructor
    · intro _
      have ht : t = settings.map (fun r => Ev.wr r.reg r.val) := by
        simpa using hok rfl
      simp [imx585_set_register_array, act_seq, hlo, act_sleep, ht]
    · intro e he
      simp [imx585_set_register_array, act_seq, hlo, act_sleep] at he
  | err e0 =>
    constructor
    · intro h
      simp [imx585_set_register_array, act_seq, hlo] at h
    · intro e he
      have he0 : e = e0 := by
        simpa [imx585_set_register_array, act_seq, hlo] using he.symm
      obtain ⟨k, r2, hget, herr2, hfail, hbef, htr⟩ := herr e0 rfl
      exact ⟨k, r2, hget, he0.trans herr2, hfail, hbef, by
        simpa [imx585_set_register_array, act_seq, hlo] using htr⟩

/-- C7 witness: the theorem applied to the mode-specific register program
under the all-succeed oracle. -/
theorem imx585_set_register_array_order_witness :
    (imx585_set_register_array imx585_1080p_common_settings okAll 0).res = Res.ok
      ∧ (imx585_set_register_array imx585_1080p_common_settings okAll 0).trace
          = imx585_1080p_common_settings.map (fun r => Ev.wr r.reg r.val)
              ++ [Ev.sleep 10000] :=
  ⟨rfl,
    (imx585_set_register_array_order imx585_1080p_common_settings okAll 0).1 rfl⟩

/-- C4: `imx585_start_streaming` runs its steps in the fixed order of
`imx585_start_steps` (global defaults, clock select, AD/MD bit depth,
mode program, lane count, lane rate, control replay, standby clear,
30 ms wait, master start): on success the bus trace is the concatenation
of every step's trace in that order, and when it returns a failure the
failure is the first failing step's error and the trace contains the
events of the steps up to and including that step only - nothing of any
later step was executed. -/
theorem imx585_start_streaming_order (s : Imx585State) (ok : Oracle) (n : Nat) :
    ((imx585_start_streaming s ok n).res = Res.ok →
      (∀ o ∈ seqOuts (imx585_start_steps s) ok n, o.res = Res.ok)
        ∧ (imx585_start_streaming s ok n).trace
            = ((seqOuts (imx585_start_steps s) ok n).map Out.trace).flatten) ∧
    (∀ e, (imx585_start_streaming s ok n).res = Res.err e →
      ∃ k o, (seqOuts (imx585_start_steps s) ok n).get? k = some o
        ∧ o.res = Res.err e
        ∧ (∀ j o2, j < k →
            (seqOuts (imx585_start_steps s) ok n).get? j = some o2 →
              o2.res = Res.ok)
        ∧ (imx585_start_streaming s ok n).trace
            = (((seqOuts (imx585_start_steps s) ok n).take (k + 1)).map
                Out.trace).flatten) := by
  obtain ⟨htr, hres⟩ := chain_eq_chainCut (imx585_start_steps s) ok n
  constructor
  · intro h
    have h2 : (chainCut (seqOuts (imx585_start_steps s) ok n)).2 = Res.ok := by
      rw [← hres]; exact h
    obtain ⟨hall, ht2⟩ := chainCut_ok _ h2
    exact ⟨hall, htr.trans ht2⟩
  · intro e he
    have he2 : (chain (imx585_start_steps s) ok n).res = Res.err e := he
    rw [hres] at he2
    obtain ⟨k, o, hget, hresk, hbef, htk⟩ := chainCut_err _ e he2
    exact ⟨k, o, hget, hresk, hbef, htr.trans htk⟩

/-- C4 witness: the theorem applied at the post-probe state under the
all-succeed oracle. -/
theorem imx585_start_streaming_order_witness :
    (imx585_start_streaming imx585_probe_state okAll 0).res = Res.ok
      ∧ (imx585_start_streaming imx585_probe_state okAll 0).trace
          = ((seqOuts (imx585_start_steps imx585_probe_state) okAll 0).map
              Out.trace).flatten :=
  ⟨rfl, ((imx585_start_streaming_order imx585_probe_state okAll 0).1 rfl).2⟩

end Imx585

